import Mathlib

/-!
Verification of `gif_to_spritesheet.py` (Beast-Tactics-3D).

Shallow embedding of the converter:

* an `Img` is a raster image: a width, a height, and a total pixel map
  (RGBA values; `Image.new('RGBA', (w, h), (0, 0, 0, 0))` is `newRGBA`);
* a `GIF` models an opened animated image: the size reported by
  `gif.size` and the ordered list of frames, each frame stored as the
  RGBA image that `gif.convert('RGBA')` materialises at that index;
* `countFrames` is the counting loop (`while True: gif.seek(frames);
  frames += 1` until `EOFError`);
* `ceilSqrt` / `ceilDiv` are the exact values of
  `math.ceil(math.sqrt(frames))` and `math.ceil(frames / cols)`;
  `frames / cols` with `cols = 0` raises `ZeroDivisionError` in Python,
  which `buildCanvas` models with an explicit error value;
* `pasteLoop` is the paste loop; `paste` is PIL's two-argument
  `Image.paste` (straight overwrite of the destination rectangle, no
  alpha blending);
* the filesystem layer (`FS`, `convert_gif_to_spritesheet`,
  `process_directory`) follows below.
-/

/-- One RGBA pixel, as PIL stores it in mode `RGBA` (four 8-bit bands). -/
structure Pixel where
  r : Nat
  g : Nat
  b : Nat
  a : Nat
deriving DecidableEq, Repr

/-- A raster image: dimensions plus a total map from coordinates to pixels.
Only coordinates with `x < width` and `y < height` are real pixels. -/
structure Img where
  width : Nat
  height : Nat
  px : Nat → Nat → Pixel

/-- `Image.new('RGBA', (w, h), (0, 0, 0, 0))`: a fully transparent canvas. -/
def newRGBA (w h : Nat) : Img :=
  { width := w, height := h, px := fun _ _ => ⟨0, 0, 0, 0⟩ }

/-- PIL `dst.paste(src, (ox, oy))` with no mask argument: inside the pasted
rectangle the source pixel (alpha included) replaces the destination pixel;
outside it the destination is untouched. -/
def paste (dst src : Img) (ox oy : Nat) : Img :=
  { dst with
    px := fun x y =>
      if ox ≤ x ∧ x < ox + src.width ∧ oy ≤ y ∧ y < oy + src.height then
        src.px (x - ox) (y - oy)
      else
        dst.px x y }

/-- An opened animated image: `width`/`height` model `gif.size`, and
`frames` is the ordered frame sequence, each entry being the RGBA image
that `gif.seek(i); gif.convert('RGBA')` yields. -/
structure GIF where
  width : Nat
  height : Nat
  frames : List Img

/-- `gif.seek(i)` succeeds exactly when frame `i` exists; past the last
frame PIL raises `EOFError`. -/
def seekOk (g : GIF) (i : Nat) : Bool :=
  i < g.frames.length

/-- The counting loop from `frames = k` onwards: seek, increment, repeat
until the seek fails. -/
def countFrom (g : GIF) (k : Nat) : Nat :=
  if h : k < g.frames.length then countFrom g (k + 1) else k
termination_by g.frames.length - k
decreasing_by omega

/-- `frames = 0; while True: gif.seek(frames); frames += 1` until
`EOFError`. -/
def countFrames (g : GIF) : Nat :=
  countFrom g 0

/-- `gif.seek(i); gif.convert('RGBA')` for an in-range index `i`. -/
def frameImg (g : GIF) (i : Nat) : Img :=
  g.frames.getD i (newRGBA g.width g.height)

/-- Exact value of `math.ceil(math.sqrt n)` for a natural `n`. -/
def ceilSqrt (n : Nat) : Nat :=
  if Nat.sqrt n * Nat.sqrt n = n then Nat.sqrt n else Nat.sqrt n + 1

/-- Exact value of `math.ceil(a / b)` for naturals with `b > 0`
(Python true division followed by `math.ceil`). -/
def ceilDiv (a b : Nat) : Nat :=
  (a + b - 1) / b

/-- Python exceptions that the converter can raise or meet. -/
inductive PyError
  | eofError
  | zeroDivisionError
  | fileNotFoundError
  | notADirectoryError
  | decodeError
deriving DecidableEq, Repr

/-- The paste loop, first `n` iterations:
`for frame in range(n): gif.seek(frame); paste at ((frame % cols) * width,
(frame // cols) * height)`. -/
def pasteLoop (g : GIF) (cols : Nat) (canvas : Img) : Nat → Img
  | 0 => canvas
  | n + 1 =>
    paste (pasteLoop g cols canvas n) (frameImg g n)
      (n % cols * g.width) (n / cols * g.height)

/-- The finished canvas for `g`: the transparent grid canvas with every
frame pasted in. -/
def sheetOf (g : GIF) : Img :=
  pasteLoop g (ceilSqrt (countFrames g))
    (newRGBA (g.width * ceilSqrt (countFrames g))
      (g.height * ceilDiv (countFrames g) (ceilSqrt (countFrames g))))
    (countFrames g)

/-- Lines 34-59 of the source: count the frames, compute the grid,
allocate the canvas, paste every frame. When the frame count is `0`,
`cols` is `0` and `math.ceil(frames / cols)` raises `ZeroDivisionError`
before any canvas is allocated. -/
def buildCanvas (g : GIF) : Except PyError Img :=
  if ceilSqrt (countFrames g) = 0 then
    Except.error PyError.zeroDivisionError
  else
    Except.ok (sheetOf g)

/-!
Filesystem layer.

Paths are strings; the world is a flat map from path to file entry plus a
set of existing directories.  The `os.path` helpers are modelled on POSIX
semantics for the slash-separated paths the tool builds.
-/

/-- `os.path.basename`: the characters after the last `/`. -/
def basename (s : String) : String :=
  ⟨(s.toList.reverse.takeWhile (fun c => c != '/')).reverse⟩

/-- `os.path.dirname`: the characters before the last `/`; trailing slashes
are stripped unless the head is all slashes (so `dirname "/b" = "/"`,
`dirname "b" = ""`). -/
def dirname (s : String) : String :=
  let head := (s.toList.reverse.dropWhile (fun c => c != '/')).reverse
  if head.all (fun c => c == '/') then ⟨head⟩
  else ⟨(head.reverse.dropWhile (fun c => c == '/')).reverse⟩

/-- `os.path.splitext(b)[0]` for a basename `b`: everything before the last
dot, except that a name whose part before the last dot is empty or all dots
(such as `.gif`) keeps the whole name. -/
def stem (b : String) : String :=
  let pre := ((b.toList.reverse.dropWhile (fun c => c != '.')).drop 1).reverse
  if b.toList.contains '.' && pre.any (fun c => c != '.') then ⟨pre⟩ else b

/-- `os.path.join(dir, name)` for the shapes the tool uses (a relative
`name` with no leading slash joins under `dir`; an empty `dir` leaves
`name` unchanged). -/
def joinPath (dir name : String) : String :=
  if name.toList.head? = some '/' then name
  else if dir = "" then name
  else if dir.toList.getLast? = some '/' then dir ++ name
  else dir ++ "/" ++ name

/-- `filename.lower().endswith('.gif')`. -/
def endsWithGifCI (s : String) : Bool :=
  List.isSuffixOf (".gif".toList) (s.toList.map Char.toLower)

/-- A file on disk: a decodable animated GIF, a PNG (as written by the
tool), or bytes no image decoder accepts. -/
inductive Entry
  | gif (g : GIF)
  | png (img : Img)
  | corrupt

/-- The filesystem: existing directories and a path-indexed file map. -/
structure FS where
  dirs : List String
  files : List (String × Entry)

/-- The entry stored at path `p`, if any. -/
def FS.lookupFile (fs : FS) (p : String) : Option Entry :=
  (fs.files.find? (fun q => q.1 == p)).map Prod.snd

/-- `os.path.exists(p)`: false for the empty path, else true when `p` is a
known directory or file. -/
def FS.existsPath (fs : FS) (p : String) : Bool :=
  (p != "") && (fs.dirs.contains p || (fs.files.map Prod.fst).contains p)

/-- Writing a file: silently replaces any entry already at that path. -/
def FS.writeFile (fs : FS) (p : String) (e : Entry) : FS :=
  { fs with files := (p, e) :: fs.files.filter (fun q => q.1 != p) }

/-- `os.makedirs(p)`: creating the empty path raises
`FileNotFoundError` (`[Errno 2] No such file or directory: ''`); any other
path is created. -/
def FS.makedirs (fs : FS) (p : String) : Except PyError FS :=
  if p = "" then Except.error PyError.fileNotFoundError
  else Except.ok { fs with dirs := p :: fs.dirs }

/-- `Image.open(p)`: a missing file raises `FileNotFoundError`, bytes no
decoder accepts raise `UnidentifiedImageError`, a PNG opens as a
single-frame image, a GIF opens with its frame sequence. -/
def openImage (fs : FS) (p : String) : Except PyError GIF :=
  match fs.lookupFile p with
  | none => Except.error PyError.fileNotFoundError
  | some Entry.corrupt => Except.error PyError.decodeError
  | some (Entry.png img) => Except.ok ⟨img.width, img.height, [img]⟩
  | some (Entry.gif g) => Except.ok g

/-- Lines 27-28 of the source: `if not os.path.exists(output_dir):
os.makedirs(output_dir)`. -/
def ensureDir (fs : FS) (d : String) : Except PyError FS :=
  if fs.existsPath d then Except.ok fs else fs.makedirs d

/-- Lines 6-66 of the source, `convert_gif_to_spritesheet`: open the GIF,
resolve the output directory (the GIF's own directory when the argument is
`None`), create it if `os.path.exists` denies it, build the spritesheet
canvas, and save it as `{stem}_spritesheet.png`, overwriting silently.
The success `print` of line 65 is recorded by the batch driver below. -/
def convert_gif_to_spritesheet (fs : FS) (gif_path : String)
    (output_dir : Option String) : Except PyError (FS × String) :=
  match openImage fs gif_path with
  | Except.error e => Except.error e
  | Except.ok gif =>
    let filename_without_ext := stem (basename gif_path)
    let out_dir := output_dir.getD (dirname gif_path)
    match ensureDir fs out_dir with
    | Except.error e => Except.error e
    | Except.ok fs1 =>
      match buildCanvas gif with
      | Except.error e => Except.error e
      | Except.ok spritesheet =>
        let output_path := joinPath out_dir (filename_without_ext ++ "_spritesheet.png")
        Except.ok (fs1.writeFile output_path (Entry.png spritesheet), output_path)

/-- The name of `path` as a directory entry of `dir`, when `path` is
directly inside `dir`. -/
def childName (dir path : String) : Option String :=
  let pre := (joinPath dir "x").toList.dropLast
  let pl := path.toList
  if List.isPrefixOf pre pl then
    let rest := pl.drop pre.length
    if rest.length != 0 && rest.all (fun c => c != '/') then some ⟨rest⟩ else none
  else none

/-- The filenames directly inside `dir`. -/
def FS.listdir (fs : FS) (dir : String) : List String :=
  fs.files.filterMap (fun q => childName dir q.1)

/-- `os.listdir(dir)`: raises `NotADirectoryError` on a file path and
`FileNotFoundError` on a missing one. -/
def FS.listdirE (fs : FS) (dir : String) : Except PyError (List String) :=
  if (fs.files.map Prod.fst).contains dir then Except.error PyError.notADirectoryError
  else if fs.dirs.contains dir then Except.ok (fs.listdir dir)
  else Except.error PyError.fileNotFoundError

/-- Line 65 of the source: `print(f"Created spritesheet: {output_path}")`. -/
def createdLine (output_path : String) : String :=
  "Created spritesheet: " ++ output_path

/-- `str(e)` for the modelled exceptions. -/
def errMsg : PyError → String
  | PyError.eofError => "EOFError"
  | PyError.zeroDivisionError => "division by zero"
  | PyError.fileNotFoundError => "No such file or directory"
  | PyError.notADirectoryError => "Not a directory"
  | PyError.decodeError => "cannot identify image file"

/-- Line 95 of the source: `print(f"Error processing {filename}: {e}")`. -/
def errorLine (filename : String) (e : PyError) : String :=
  "Error processing " ++ filename ++ ": " ++ errMsg e

/-- Line 97 of the source: `print(f"Processed {processed} GIF files")`. -/
def processedLine (processed : Nat) : String :=
  "Processed " ++ toString processed ++ " GIF files"

/-- Line 77 of the source: `print(f"Directory not found: {directory}")`. -/
def dirNotFoundLine (directory : String) : String :=
  "Directory not found: " ++ directory

/-- State threaded through the batch loop of `process_directory`: the
filesystem, the lines printed so far, and the success tally. -/
structure BatchAcc where
  fs : FS
  out : List String
  processed : Nat

/-- Lines 88-95 of the source, one iteration of the batch loop: skip
non-`.gif` names; convert a `.gif`, recording the success print and
incrementing the tally, or catch the raised error, print the diagnostic
naming the file and the cause, and leave the tally unchanged. -/
def procStep (directory : String) (output_dir : Option String)
    (acc : BatchAcc) (filename : String) : BatchAcc :=
  if endsWithGifCI filename then
    match convert_gif_to_spritesheet acc.fs (joinPath directory filename) output_dir with
    | Except.ok (fs1, output_path) =>
      ⟨fs1, acc.out ++ [createdLine output_path], acc.processed + 1⟩
    | Except.error e =>
      ⟨acc.fs, acc.out ++ [errorLine filename e], acc.processed⟩
  else acc

/-- Lines 68-97 of the source, `process_directory`: a missing input
directory prints a diagnostic and returns normally; otherwise the optional
output directory is created when the argument is truthy and the path does
not exist, the directory listing is taken once, each `.gif` file is
converted inside the per-file error boundary, and the summary line is
printed last.  The `Except` layer carries any exception this function
itself would leave uncaught. -/
def process_directory (fs : FS) (directory : String)
    (output_dir : Option String) : Except PyError (FS × List String) :=
  if fs.existsPath directory then
    match (match output_dir with
           | some d => if d != "" && !(fs.existsPath d) then fs.makedirs d else Except.ok fs
           | none => Except.ok fs) with
    | Except.error e => Except.error e
    | Except.ok fs1 =>
      match fs1.listdirE directory with
      | Except.error e => Except.error e
      | Except.ok names =>
        let r := names.foldl (procStep directory output_dir) ⟨fs1, [], 0⟩
        Except.ok (r.fs, r.out ++ [processedLine r.processed])
  else Except.ok (fs, [dirNotFoundLine directory])

/-- Lines 99-106 of the source: the `__main__` block calls
`process_directory` and never calls `sys.exit`, so the process exits `0`
unless an exception escapes `process_directory` uncaught. -/
def mainExitCode (fs : FS) (input_dir : String) (output_dir : Option String) : Nat :=
  match process_directory fs input_dir output_dir with
  | Except.ok _ => 0
  | Except.error _ => 1

/-! Pixel-level facts about the paste loop (claims C1 and C3). -/

/-- All frames share the size reported by `gif.size` (the data-model
invariant the source assumes but never checks). -/
def uniformFrames (g : GIF) : Bool :=
  g.frames.all (fun f => f.width == g.width && f.height == g.height)

/-- A concrete two-frame 1×1 animation with distinct pixels. -/
def gifTwo : GIF :=
  ⟨1, 1, [⟨1, 1, fun _ _ => ⟨10, 20, 30, 40⟩⟩, ⟨1, 1, fun _ _ => ⟨50, 60, 70, 80⟩⟩]⟩

/-- A concrete three-frame 1×1 animation (grid 2×2, one unused cell). -/
def gifThree : GIF :=
  ⟨1, 1, [⟨1, 1, fun _ _ => ⟨1, 0, 0, 255⟩⟩, ⟨1, 1, fun _ _ => ⟨0, 1, 0, 255⟩⟩,
          ⟨1, 1, fun _ _ => ⟨0, 0, 1, 255⟩⟩]⟩

/-! Concrete filesystems for the filesystem-level claims. -/

/-- A concrete one-frame 1×1 animation. -/
def gifOne : GIF :=
  ⟨1, 1, [⟨1, 1, fun _ _ => ⟨9, 9, 9, 9⟩⟩]⟩

/-- A GIF stored under a bare filename with no directory component. -/
def fsBare : FS :=
  ⟨[], [("anim.gif", Entry.gif gifTwo)]⟩

def bareGifPath : String := "anim.gif"

/-! Filesystem lemmas for the idempotence claim. -/

/-- The output path a successful run reports. -/
def outPathOf (r : Except PyError (FS × String)) : Option String :=
  match r with
  | Except.ok q => some q.2
  | Except.error _ => none

/-- The file a successful run leaves at path `p`. -/
def runLookup (r : Except PyError (FS × String)) (p : String) : Option Entry :=
  match r with
  | Except.ok q => q.1.lookupFile p
  | Except.error _ => none

/-! Concrete batch scenario: a directory with three valid GIFs and one
corrupt file. -/

def gifsDir : String := "gifs"

def pW : String := "gifs/a.gif"

def outW : String := "gifs/a_spritesheet.png"

def fsW : FS := ⟨[gifsDir], [(pW, Entry.gif gifTwo)]⟩

def fsW1 : FS := FS.writeFile fsW outW (Entry.png (sheetOf gifTwo))

def nA : String := "a.gif"

def nB : String := "b.gif"

def nC : String := "c.gif"

def nD : String := "d.gif"

def outA : String := "gifs/a_spritesheet.png"

def outB : String := "gifs/b_spritesheet.png"

def outC : String := "gifs/c_spritesheet.png"

def fsC7 : FS :=
  ⟨[gifsDir], [("gifs/a.gif", Entry.gif gifTwo), ("gifs/b.gif", Entry.gif gifThree),
               ("gifs/c.gif", Entry.gif gifOne), ("gifs/d.gif", Entry.corrupt)]⟩

def fsC7a : FS := FS.writeFile fsC7 outA (Entry.png (sheetOf gifTwo))

def fsC7b : FS := FS.writeFile fsC7a outB (Entry.png (sheetOf gifThree))

def fsC7c : FS := FS.writeFile fsC7b outC (Entry.png (sheetOf gifOne))

/-- Is this file one of the tool's PNG outputs? -/
def isPng : Entry → Bool
  | Entry.png _ => true
  | _ => false

/-- How many PNG files the filesystem holds. -/
def countPngs (fs : FS) : Nat :=
  (fs.files.filter (fun q => isPng q.2)).length

def fsEmpty : FS := ⟨[], []⟩

/-! Frame counting. -/

theorem countFrom_len (g : GIF) :
    ∀ d k, g.frames.length - k = d → k ≤ g.frames.length →
    countFrom g k = g.frames.length := by
  intro d
  induction d with
  | zero =>
    intro k hd hk
    rw [countFrom]
    have hnot : ¬ k < g.frames.length := by omega
    rw [dif_neg hnot]
    omega
  | succ n ih =>
    intro k hd hk
    rw [countFrom]
    have hlt : k < g.frames.length := by omega
    rw [dif_pos hlt]
    exact ih (k + 1) (by omega) (by omega)

theorem countFrames_len (g : GIF) : countFrames g = g.frames.length :=
  countFrom_len g g.frames.length 0 (by omega) (Nat.zero_le _)

/-- C5: the builder counts frames by advancing the cursor from 0 until the
seek raises `EOFError`; the count equals the number of indices at which the
seek succeeds, i.e. the length of the frame sequence (and the recursion is
well-founded, so the scan terminates on every finite frame sequence). -/
theorem frame_count_by_seek (g : GIF) :
    countFrames g = g.frames.length ∧
    ∀ i : Nat, seekOk g i = true ↔ i < countFrames g := by
  refine ⟨countFrames_len g, ?_⟩
  intro i
  rw [countFrames_len g]
  simp [seekOk]

/-! Grid layout arithmetic. -/

theorem le_mul_ceilDiv (a b : Nat) (hb : 0 < b) : a ≤ b * ceilDiv a b := by
  have h1 := Nat.div_add_mod (a + b - 1) b
  have h2 : (a + b - 1) % b < b := Nat.mod_lt _ hb
  unfold ceilDiv
  omega

theorem ceilDiv_le_of (a b r : Nat) (hb : 0 < b) (h : a ≤ b * r) :
    ceilDiv a b ≤ r := by
  unfold ceilDiv
  apply (Nat.div_le_iff_le_mul_add_pred hb).mpr
  omega

theorem le_ceilSqrt_sq (n : Nat) : n ≤ ceilSqrt n * ceilSqrt n := by
  unfold ceilSqrt
  by_cases hs : Nat.sqrt n * Nat.sqrt n = n
  · rw [if_pos hs]
    omega
  · rw [if_neg hs]
    exact Nat.le_of_lt (by simpa [Nat.succ_eq_add_one] using Nat.lt_succ_sqrt n)

theorem ceilSqrt_le (n m : Nat) (h : n ≤ m * m) : ceilSqrt n ≤ m := by
  unfold ceilSqrt
  by_cases hs : Nat.sqrt n * Nat.sqrt n = n
  · rw [if_pos hs]
    calc Nat.sqrt n ≤ Nat.sqrt (m * m) := Nat.sqrt_le_sqrt h
    _ = m := Nat.sqrt_eq m
  · rw [if_neg hs]
    have h1 : Nat.sqrt n * Nat.sqrt n ≤ n := Nat.sqrt_le n
    by_contra hc
    push_neg at hc
    have hm : m ≤ Nat.sqrt n := by omega
    have h2 : m * m ≤ Nat.sqrt n * Nat.sqrt n := Nat.mul_le_mul hm hm
    omega

theorem ceilSqrt_pos (n : Nat) (h : 0 < n) : 0 < ceilSqrt n := by
  have h1 := le_ceilSqrt_sq n
  by_contra hc
  push_neg at hc
  have : ceilSqrt n = 0 := by omega
  rw [this] at h1
  omega

theorem ceilSqrt_eq_zero (n : Nat) : ceilSqrt n = 0 ↔ n = 0 := by
  constructor
  · intro h
    have h1 := le_ceilSqrt_sq n
    rw [h] at h1
    omega
  · intro h
    subst h
    decide

theorem ceilSqrt_eq_ceil_real_sqrt (n : Nat) : ceilSqrt n = ⌈Real.sqrt n⌉₊ := by
  unfold ceilSqrt
  by_cases hs : Nat.sqrt n * Nat.sqrt n = n
  · rw [if_pos hs]
    have hn : (n : ℝ) = ((Nat.sqrt n : ℕ) : ℝ) ^ 2 := by
      rw [sq]
      exact_mod_cast hs.symm
    rw [hn, Real.sqrt_sq (by positivity)]
    exact (Nat.ceil_natCast _).symm
  · rw [if_neg hs]
    have h1 : Nat.sqrt n * Nat.sqrt n < n := Nat.lt_of_le_of_ne (Nat.sqrt_le n) hs
    have h2 : n < (Nat.sqrt n + 1) * (Nat.sqrt n + 1) := by
      simpa [Nat.succ_eq_add_one] using Nat.lt_succ_sqrt n
    symm
    rw [Nat.ceil_eq_iff (by omega)]
    constructor
    · simp only [Nat.add_sub_cancel]
      rw [Real.lt_sqrt (by positivity)]
      have : (Nat.sqrt n : ℝ) ^ 2 < (n : ℝ) := by
        rw [sq]
        exact_mod_cast h1
      exact this
    · rw [Real.sqrt_le_iff]
      refine ⟨by positivity, ?_⟩
      have : (n : ℝ) ≤ ((Nat.sqrt n + 1 : ℕ) : ℝ) ^ 2 := by
        rw [sq]
        exact_mod_cast Nat.le_of_lt h2
      exact_mod_cast this

theorem ceilDiv_eq_ceil_rat_div (a b : Nat) (ha : 0 < a) (hb : 0 < b) :
    ceilDiv a b = ⌈(a : ℚ) / (b : ℚ)⌉₊ := by
  have hq1 : a ≤ b * ceilDiv a b := le_mul_ceilDiv a b hb
  have hq0 : 0 < ceilDiv a b := by
    by_contra hc
    push_neg at hc
    have h0 : ceilDiv a b = 0 := by omega
    rw [h0, Nat.mul_zero] at hq1
    omega
  have hq2 : b * (ceilDiv a b - 1) < a := by
    by_contra hc
    push_neg at hc
    have := ceilDiv_le_of a b (ceilDiv a b - 1) hb hc
    omega
  symm
  rw [Nat.ceil_eq_iff (by omega)]
  constructor
  · rw [lt_div_iff₀ (by positivity)]
    have hq2' : (ceilDiv a b - 1) * b < a := by
      rw [Nat.mul_comm]
      exact hq2
    exact_mod_cast hq2'
  · rw [div_le_iff₀ (by positivity)]
    have hq1' : a ≤ ceilDiv a b * b := by
      rw [Nat.mul_comm]
      exact hq1
    exact_mod_cast hq1'

/-- C2: for every frame count N ≥ 1 the builder's grid satisfies
columns = ⌈√N⌉ (hence columns is the smallest integer ≥ √N and
√N ≤ columns), rows = ⌈N / columns⌉, and columns·rows ≥ N. -/
theorem grid_layout_spec (N : Nat) (h : 1 ≤ N) :
    ceilSqrt N = ⌈Real.sqrt N⌉₊ ∧
    Real.sqrt N ≤ (ceilSqrt N : ℝ) ∧
    ceilDiv N (ceilSqrt N) = ⌈(N : ℚ) / (ceilSqrt N : ℚ)⌉₊ ∧
    N ≤ ceilSqrt N * ceilDiv N (ceilSqrt N) := by
  have hc : 0 < ceilSqrt N := ceilSqrt_pos N h
  refine ⟨ceilSqrt_eq_ceil_real_sqrt N, ?_,
    ceilDiv_eq_ceil_rat_div N _ h hc, le_mul_ceilDiv N _ hc⟩
  rw [ceilSqrt_eq_ceil_real_sqrt N]
  exact Nat.le_ceil _

theorem grid_layout_spec_witness :
    1 ≤ 5 ∧
    (ceilSqrt 5 = ⌈Real.sqrt ((5 : ℕ) : ℝ)⌉₊ ∧
     Real.sqrt ((5 : ℕ) : ℝ) ≤ (ceilSqrt 5 : ℝ) ∧
     ceilDiv 5 (ceilSqrt 5) = ⌈((5 : ℕ) : ℚ) / (ceilSqrt 5 : ℚ)⌉₊ ∧
     5 ≤ ceilSqrt 5 * ceilDiv 5 (ceilSqrt 5)) :=
  ⟨by decide, grid_layout_spec 5 (by decide)⟩

/-! Zero-frame behaviour (claim C4) and its unreachability for opened
images (claim C9). -/

/-- C4 counterexample: on a source with 0 frames the builder does not
"proceed to allocate a degenerate zero-dimension canvas": `frames / cols`
is `0 / 0`, which raises `ZeroDivisionError` first. -/
theorem zero_frames_counterexample :
    buildCanvas ⟨1, 1, []⟩ = Except.error PyError.zeroDivisionError := by
  have h0 : countFrames ⟨1, 1, ([] : List Img)⟩ = 0 := countFrames_len _
  simp [buildCanvas, h0, ceilSqrt_eq_zero]

/-- C4 (amended): when the frame count is 0, `columns = 0` via the ceiling
of `sqrt(0)`, but the rows computation `frames / cols` then divides by
zero, so the builder raises `ZeroDivisionError` before allocating any
canvas. -/
theorem zero_frames_division_error (g : GIF) (h : countFrames g = 0) :
    ceilSqrt (countFrames g) = 0 ∧
    buildCanvas g = Except.error PyError.zeroDivisionError := by
  have hc : ceilSqrt (countFrames g) = 0 := by
    rw [h]
    decide
  exact ⟨hc, by simp [buildCanvas, hc]⟩

theorem zero_frames_division_error_witness :
    countFrames ⟨1, 1, []⟩ = 0 ∧
    (ceilSqrt (countFrames ⟨1, 1, ([] : List Img)⟩) = 0 ∧
     buildCanvas ⟨1, 1, []⟩ = Except.error PyError.zeroDivisionError) :=
  ⟨countFrames_len _, zero_frames_division_error _ (countFrames_len _)⟩

/-- C9: a source the builder could open has a first frame (`Image.open`
reads the size of frame 0), so the counting loop succeeds at least once
and returns ≥ 1, `columns ≥ 1`, and `frames / cols` never divides by
zero: `buildCanvas` reaches the paste loop and returns a canvas. -/
theorem opened_image_positive_frames (g : GIF) (h : 0 < g.frames.length) :
    0 < countFrames g ∧
    0 < ceilSqrt (countFrames g) ∧
    (buildCanvas g).toOption.isSome = true := by
  have h1 : 0 < countFrames g := by
    rw [countFrames_len]
    exact h
  have h2 : 0 < ceilSqrt (countFrames g) := ceilSqrt_pos _ h1
  refine ⟨h1, h2, ?_⟩
  simp only [buildCanvas]
  rw [if_neg (by omega)]
  rfl

theorem opened_image_positive_frames_witness :
    0 < (GIF.mk 1 1 [newRGBA 1 1]).frames.length ∧
    (0 < countFrames (GIF.mk 1 1 [newRGBA 1 1]) ∧
     0 < ceilSqrt (countFrames (GIF.mk 1 1 [newRGBA 1 1])) ∧
     (buildCanvas (GIF.mk 1 1 [newRGBA 1 1])).toOption.isSome = true) :=
  ⟨by decide, opened_image_positive_frames _ (by decide)⟩

theorem frameImg_dims (g : GIF) (hu : uniformFrames g = true) (j : Nat)
    (hj : j < g.frames.length) :
    (frameImg g j).width = g.width ∧ (frameImg g j).height = g.height := by
  have hmem : g.frames.getD j (newRGBA g.width g.height) ∈ g.frames := by
    rw [List.getD_eq_getElem g.frames _ hj]
    exact List.getElem_mem hj
  have := List.all_eq_true.mp hu _ hmem
  simp only [Bool.and_eq_true, beq_iff_eq] at this
  exact ⟨this.1, this.2⟩

theorem cell_eq_of_inside (a b dx w : Nat) (hdx : dx < w)
    (h1 : a * w ≤ b * w + dx) (h2 : b * w + dx < a * w + w) : a = b := by
  have hb : b * w < (a + 1) * w := by
    calc b * w ≤ b * w + dx := Nat.le_add_right _ _
    _ < a * w + w := h2
    _ = (a + 1) * w := by ring
  have ha : a * w < (b + 1) * w := by
    calc a * w ≤ b * w + dx := h1
    _ < b * w + w := by omega
    _ = (b + 1) * w := by ring
  have hb' : b < a + 1 := lt_of_mul_lt_mul_right hb (Nat.zero_le _)
  have ha' : a < b + 1 := lt_of_mul_lt_mul_right ha (Nat.zero_le _)
  omega

theorem pasteLoop_px_frame (g : GIF) (c : Nat) (canvas : Img)
    (hu : uniformFrames g = true) :
    ∀ n i dx dy, i < n → n ≤ g.frames.length → dx < g.width → dy < g.height →
      (pasteLoop g c canvas n).px (i % c * g.width + dx) (i / c * g.height + dy)
        = (frameImg g i).px dx dy := by
  intro n
  induction n with
  | zero => intro i dx dy hi; omega
  | succ n ih =>
    intro i dx dy hi hn hdx hdy
    have hdims := frameImg_dims g hu n (by omega)
    by_cases hin : i = n
    · subst hin
      simp only [pasteLoop, paste]
      rw [if_pos]
      · congr 1 <;> omega
      · refine ⟨Nat.le_add_right _ _, ?_, Nat.le_add_right _ _, ?_⟩
        · rw [hdims.1]; omega
        · rw [hdims.2]; omega
    · simp only [pasteLoop, paste]
      rw [if_neg]
      · exact ih i dx dy (by omega) (by omega) hdx hdy
      · intro hmem
        obtain ⟨m1, m2, m3, m4⟩ := hmem
        rw [hdims.1] at m2
        rw [hdims.2] at m4
        have hcol : n % c = i % c := cell_eq_of_inside _ _ _ _ hdx m1 m2
        have hrow : n / c = i / c := cell_eq_of_inside _ _ _ _ hdy m3 m4
        have e1 := Nat.div_add_mod i c
        have e2 := Nat.div_add_mod n c
        have : c * (i / c) = c * (n / c) := by rw [hrow]
        omega

theorem pasteLoop_px_untouched (g : GIF) (c W H : Nat)
    (hu : uniformFrames g = true) :
    ∀ n x y, n ≤ g.frames.length →
      (∀ i, i < n →
        ¬(i % c * g.width ≤ x ∧ x < i % c * g.width + g.width ∧
          i / c * g.height ≤ y ∧ y < i / c * g.height + g.height)) →
      (pasteLoop g c (newRGBA W H) n).px x y = ⟨0, 0, 0, 0⟩ := by
  intro n
  induction n with
  | zero => intro x y _ _; rfl
  | succ n ih =>
    intro x y hn hout
    have hdims := frameImg_dims g hu n (by omega)
    simp only [pasteLoop, paste]
    rw [if_neg]
    · exact ih x y (by omega) (fun i hi => hout i (by omega))
    · rw [hdims.1, hdims.2]
      exact hout n (by omega)

/-- C1: for a GIF with N ≥ 1 frames of uniform size, the builder succeeds
and every pixel of source frame `i` (alpha included) appears unmodified on
the canvas at offset `((i mod columns)·w, (i div columns)·h)`: the paste
is a straight overwrite, so the source pixel entirely replaces whatever
the canvas held there. -/
theorem frame_pixels_roundtrip (g : GIF) (i dx dy : Nat)
    (hu : uniformFrames g = true) (hi : i < g.frames.length)
    (hdx : dx < g.width) (hdy : dy < g.height) :
    buildCanvas g = Except.ok (sheetOf g) ∧
    (sheetOf g).px (i % ceilSqrt (countFrames g) * g.width + dx)
        (i / ceilSqrt (countFrames g) * g.height + dy)
      = (frameImg g i).px dx dy := by
  have hlen : countFrames g = g.frames.length := countFrames_len g
  have hc : 0 < ceilSqrt (countFrames g) := ceilSqrt_pos _ (by omega)
  constructor
  · simp only [buildCanvas]
    rw [if_neg (by omega)]
  · unfold sheetOf
    exact pasteLoop_px_frame g _ _ hu (countFrames g) i dx dy (by omega)
      (by omega) hdx hdy

theorem frame_pixels_roundtrip_witness :
    (uniformFrames gifTwo = true ∧ 1 < gifTwo.frames.length ∧
     0 < gifTwo.width ∧ 0 < gifTwo.height) ∧
    (buildCanvas gifTwo = Except.ok (sheetOf gifTwo) ∧
     (sheetOf gifTwo).px (1 % ceilSqrt (countFrames gifTwo) * gifTwo.width + 0)
         (1 / ceilSqrt (countFrames gifTwo) * gifTwo.height + 0)
       = (frameImg gifTwo 1).px 0 0) :=
  ⟨⟨by decide, by decide, by decide, by decide⟩,
   frame_pixels_roundtrip gifTwo 1 0 0 (by decide) (by decide) (by decide) (by decide)⟩

/-- C3: when the grid has more cells than frames, every canvas pixel lying
in a cell of index ≥ N keeps the fully transparent value (alpha = 0) the
canvas was created with. -/
theorem unused_cells_transparent (g : GIF) (x y : Nat)
    (hu : uniformFrames g = true)
    (hx : x < g.width * ceilSqrt (countFrames g))
    (hy : y < g.height * ceilDiv (countFrames g) (ceilSqrt (countFrames g)))
    (hcell : countFrames g ≤
      y / g.height * ceilSqrt (countFrames g) + x / g.width) :
    (sheetOf g).px x y = ⟨0, 0, 0, 0⟩ := by
  have hlen : countFrames g = g.frames.length := countFrames_len g
  have hw : 0 < g.width := by
    rcases Nat.eq_zero_or_pos g.width with h0 | h1
    · rw [h0, Nat.zero_mul] at hx
      omega
    · exact h1
  have hh : 0 < g.height := by
    rcases Nat.eq_zero_or_pos g.height with h0 | h1
    · rw [h0, Nat.zero_mul] at hy
      omega
    · exact h1
  unfold sheetOf
  apply pasteLoop_px_untouched g _ _ _ hu _ x y (by omega)
  intro i hi hmem
  obtain ⟨m1, m2, m3, m4⟩ := hmem
  have hxdiv : x / g.width = i % ceilSqrt (countFrames g) :=
    Nat.div_eq_of_lt_le (by omega) (by rw [Nat.succ_mul]; omega)
  have hydiv : y / g.height = i / ceilSqrt (countFrames g) :=
    Nat.div_eq_of_lt_le (by omega) (by rw [Nat.succ_mul]; omega)
  rw [hxdiv, hydiv] at hcell
  have e1 := Nat.div_add_mod i (ceilSqrt (countFrames g))
  have e2 : i / ceilSqrt (countFrames g) * ceilSqrt (countFrames g)
      = ceilSqrt (countFrames g) * (i / ceilSqrt (countFrames g)) :=
    Nat.mul_comm _ _
  omega

theorem ceilSqrt_three : ceilSqrt 3 = 2 := by
  have h1 : Nat.sqrt 3 = 1 := by
    have ha : 1 ≤ Nat.sqrt 3 := Nat.le_sqrt.mpr (by omega)
    have hb : Nat.sqrt 3 < 2 := Nat.sqrt_lt.mpr (by omega)
    omega
  rw [ceilSqrt, h1]
  norm_num

theorem unused_cells_transparent_witness :
    (uniformFrames gifThree = true ∧
     1 < gifThree.width * ceilSqrt (countFrames gifThree) ∧
     1 < gifThree.height * ceilDiv (countFrames gifThree) (ceilSqrt (countFrames gifThree)) ∧
     countFrames gifThree ≤
       1 / gifThree.height * ceilSqrt (countFrames gifThree) + 1 / gifThree.width) ∧
    (sheetOf gifThree).px 1 1 = ⟨0, 0, 0, 0⟩ := by
  have h1 : uniformFrames gifThree = true := by decide
  have hx : 1 < gifThree.width * ceilSqrt (countFrames gifThree) := by
    rw [countFrames_len]
    show 1 < gifThree.width * ceilSqrt 3
    rw [ceilSqrt_three]
    decide
  have hy : 1 < gifThree.height *
      ceilDiv (countFrames gifThree) (ceilSqrt (countFrames gifThree)) := by
    rw [countFrames_len]
    show 1 < gifThree.height * ceilDiv 3 (ceilSqrt 3)
    rw [ceilSqrt_three]
    decide
  have hc : countFrames gifThree ≤
      1 / gifThree.height * ceilSqrt (countFrames gifThree) + 1 / gifThree.width := by
    rw [countFrames_len]
    show 3 ≤ 1 / gifThree.height * ceilSqrt 3 + 1 / gifThree.width
    rw [ceilSqrt_three]
    decide
  exact ⟨⟨h1, hx, hy, hc⟩, unused_cells_transparent gifThree 1 1 h1 hx hy hc⟩

/-- C10: calling the builder on a bare filename with no directory
component and no output directory makes it take `os.path.dirname`, get
`""`, see `os.path.exists("")` return false, and crash in
`os.makedirs("")` with `FileNotFoundError` — instead of writing the
spritesheet next to the source file. -/
theorem bare_filename_mkdir_error :
    convert_gif_to_spritesheet fsBare bareGifPath none =
      Except.error PyError.fileNotFoundError := rfl

theorem lookupFile_writeFile_self (fs : FS) (p : String) (e : Entry) :
    (fs.writeFile p e).lookupFile p = some e := by
  unfold FS.writeFile FS.lookupFile
  rw [List.find?_cons_of_pos _ (by simp)]
  rfl

theorem find?_filter_ne (l : List (String × Entry)) (p q : String) (h : q ≠ p) :
    (l.filter (fun r => r.1 != p)).find? (fun r => r.1 == q)
      = l.find? (fun r => r.1 == q) := by
  induction l with
  | nil => rfl
  | cons a l ih =>
    rw [List.filter_cons]
    by_cases hap : a.1 = p
    · have h1 : (a.1 != p) = false := by simp [hap]
      have h2 : (a.1 == q) = false := by
        simp only [beq_eq_false_iff_ne, ne_eq, hap]
        exact fun hh => h hh.symm
      rw [h1]
      simp only [Bool.false_eq_true, if_false]
      conv_rhs => rw [List.find?_cons, h2]
      exact ih
    · have h1 : (a.1 != p) = true := by simp [hap]
      rw [h1]
      simp only [if_true]
      rw [List.find?_cons, List.find?_cons]
      by_cases haq : a.1 = q
      · have h2 : (a.1 == q) = true := by simp [haq]
        rw [h2]
      · have h2 : (a.1 == q) = false := by simp [haq]
        rw [h2]
        exact ih

theorem lookupFile_writeFile_ne (fs : FS) (p q : String) (e : Entry)
    (h : q ≠ p) : (fs.writeFile p e).lookupFile q = fs.lookupFile q := by
  unfold FS.writeFile FS.lookupFile
  have h2 : ((p, e).1 == q) = false := by
    simp only [beq_eq_false_iff_ne, ne_eq]
    exact fun hh => h hh.symm
  conv_lhs => rw [List.find?_cons, h2]
  rw [find?_filter_ne fs.files p q h]

theorem existsPath_writeFile (fs : FS) (p : String) (e : Entry) (d : String)
    (h : fs.existsPath d = true) : (fs.writeFile p e).existsPath d = true := by
  unfold FS.existsPath at h ⊢
  simp only [Bool.and_eq_true, Bool.or_eq_true] at h ⊢
  obtain ⟨hne, hd⟩ := h
  refine ⟨hne, ?_⟩
  cases hd with
  | inl h1 => exact Or.inl h1
  | inr h1 =>
    right
    rw [List.contains_iff_exists_mem_beq] at h1 ⊢
    obtain ⟨x, hx, hbeq⟩ := h1
    obtain ⟨r, hr, hfst⟩ := List.mem_map.mp hx
    by_cases hdp : x = p
    · exact ⟨p, by simp [FS.writeFile], by rw [hdp] at hbeq; exact hbeq⟩
    · refine ⟨x, ?_, hbeq⟩
      apply List.mem_map.mpr
      refine ⟨r, ?_, hfst⟩
      simp only [FS.writeFile, List.mem_cons]
      right
      apply List.mem_filter.mpr
      refine ⟨hr, ?_⟩
      simp [hfst, hdp]

theorem ensureDir_ok_files (fs fsd : FS) (d : String)
    (h : ensureDir fs d = Except.ok fsd) : fsd.files = fs.files := by
  unfold ensureDir at h
  by_cases hex : fs.existsPath d = true
  · rw [if_pos hex] at h
    cases h
    rfl
  · rw [if_neg hex] at h
    unfold FS.makedirs at h
    by_cases hd : d = ""
    · rw [if_pos hd] at h
      cases h
    · rw [if_neg hd] at h
      cases h
      rfl

theorem ensureDir_ok_exists (fs fsd : FS) (d : String)
    (h : ensureDir fs d = Except.ok fsd) : fsd.existsPath d = true := by
  unfold ensureDir at h
  by_cases hex : fs.existsPath d = true
  · rw [if_pos hex] at h
    cases h
    exact hex
  · rw [if_neg hex] at h
    unfold FS.makedirs at h
    by_cases hd : d = ""
    · rw [if_pos hd] at h
      cases h
    · rw [if_neg hd] at h
      cases h
      unfold FS.existsPath
      simp [hd]

theorem lookupFile_congr_files (fsa fsb : FS) (h : fsa.files = fsb.files)
    (q : String) : fsa.lookupFile q = fsb.lookupFile q := by
  unfold FS.lookupFile
  rw [h]

theorem buildCanvas_ok (g : GIF) (h : 0 < g.frames.length) :
    buildCanvas g = Except.ok (sheetOf g) := by
  simp only [buildCanvas]
  rw [if_neg]
  have := ceilSqrt_pos (countFrames g) (by rw [countFrames_len]; omega)
  omega

theorem convert_first_run (fs fsd : FS) (p : String) (od : Option String)
    (gif : GIF) (sheet : Img)
    (hopen : openImage fs p = Except.ok gif)
    (hens : ensureDir fs (od.getD (dirname p)) = Except.ok fsd)
    (hbc : buildCanvas gif = Except.ok sheet) :
    convert_gif_to_spritesheet fs p od
      = Except.ok
          (FS.writeFile fsd
            (joinPath (od.getD (dirname p)) (stem (basename p) ++ "_spritesheet.png"))
            (Entry.png sheet),
           joinPath (od.getD (dirname p)) (stem (basename p) ++ "_spritesheet.png")) := by
  simp only [convert_gif_to_spritesheet, hopen, hens, hbc]

theorem convert_second_run (fsd : FS) (p W : String) (od : Option String)
    (gif : GIF) (sheet : Img)
    (hopen : openImage fsd p = Except.ok gif)
    (hex : fsd.existsPath (od.getD (dirname p)) = true)
    (hbc : buildCanvas gif = Except.ok sheet)
    (hW : W = joinPath (od.getD (dirname p)) (stem (basename p) ++ "_spritesheet.png"))
    (hne : W ≠ p) :
    convert_gif_to_spritesheet (FS.writeFile fsd W (Entry.png sheet)) p od
      = Except.ok
          (FS.writeFile (FS.writeFile fsd W (Entry.png sheet)) W (Entry.png sheet), W) := by
  have hopen2 : openImage (FS.writeFile fsd W (Entry.png sheet)) p = Except.ok gif := by
    unfold openImage at hopen ⊢
    rw [lookupFile_writeFile_ne fsd W p _ (fun hh => hne hh.symm)]
    exact hopen
  have hex2 : (FS.writeFile fsd W (Entry.png sheet)).existsPath (od.getD (dirname p)) = true :=
    existsPath_writeFile fsd W _ _ hex
  have hens2 : ensureDir (FS.writeFile fsd W (Entry.png sheet)) (od.getD (dirname p))
      = Except.ok (FS.writeFile fsd W (Entry.png sheet)) := by
    unfold ensureDir
    rw [if_pos hex2]
  simp only [convert_gif_to_spritesheet, hopen2, hens2, hbc]
  rw [hW]

/-- C8: a successful build writes to
`{outputDirectory}/{stem}_spritesheet.png`; running the builder again on
the same input and output directory succeeds, reports the same path,
silently overwrites the file, and leaves identical content there (the
model's canvas is a deterministic function of the input, matching a
deterministic encoder). -/
theorem idempotent_rebuild (fs fs1 : FS) (p out : String) (od : Option String)
    (h1 : convert_gif_to_spritesheet fs p od = Except.ok (fs1, out))
    (hne : out ≠ p) :
    out = joinPath (od.getD (dirname p)) (stem (basename p) ++ "_spritesheet.png") ∧
    outPathOf (convert_gif_to_spritesheet fs1 p od) = some out ∧
    runLookup (convert_gif_to_spritesheet fs1 p od) out = fs1.lookupFile out := by
  have hmain := h1
  simp only [convert_gif_to_spritesheet] at hmain
  cases hopen : openImage fs p with
  | error e =>
    simp only [hopen] at hmain
    exact Except.noConfusion hmain
  | ok gif =>
    simp only [hopen] at hmain
    cases hens : ensureDir fs (od.getD (dirname p)) with
    | error e =>
      simp only [hens] at hmain
      exact Except.noConfusion hmain
    | ok fsd =>
      simp only [hens] at hmain
      cases hbc : buildCanvas gif with
      | error e =>
        simp only [hbc] at hmain
        exact Except.noConfusion hmain
      | ok sheet =>
        simp only [hbc] at hmain
        simp only [Except.ok.injEq, Prod.mk.injEq] at hmain
        obtain ⟨hfs1, hout⟩ := hmain
        subst hout
        subst hfs1
        have hopen' : openImage fsd p = Except.ok gif := by
          unfold openImage at hopen ⊢
          rw [lookupFile_congr_files fsd fs (ensureDir_ok_files fs fsd _ hens)]
          exact hopen
        have h2 := convert_second_run fsd p _ od gif sheet hopen'
          (ensureDir_ok_exists fs fsd _ hens) hbc rfl hne
        refine ⟨rfl, ?_, ?_⟩
        · rw [h2]
          rfl
        · rw [h2]
          simp only [runLookup]
          rw [lookupFile_writeFile_self, lookupFile_writeFile_self]

theorem idempotent_rebuild_witness :
    (convert_gif_to_spritesheet fsW pW none = Except.ok (fsW1, outW) ∧ outW ≠ pW) ∧
    (outW = joinPath ((none : Option String).getD (dirname pW))
        (stem (basename pW) ++ "_spritesheet.png") ∧
     outPathOf (convert_gif_to_spritesheet fsW1 pW none) = some outW ∧
     runLookup (convert_gif_to_spritesheet fsW1 pW none) outW = fsW1.lookupFile outW) := by
  have h1 : convert_gif_to_spritesheet fsW pW none = Except.ok (fsW1, outW) :=
    convert_first_run fsW fsW pW none gifTwo (sheetOf gifTwo) rfl rfl
      (buildCanvas_ok gifTwo (by decide))
  have hne : outW ≠ pW := by decide
  exact ⟨⟨h1, hne⟩, idempotent_rebuild fsW fsW1 pW outW none h1 hne⟩

theorem process_directory_none_eval (fs : FS) (dir : String) (names : List String)
    (hex : fs.existsPath dir = true)
    (hls : fs.listdirE dir = Except.ok names) :
    process_directory fs dir none
      = Except.ok ((names.foldl (procStep dir none) ⟨fs, [], 0⟩).fs,
          (names.foldl (procStep dir none) ⟨fs, [], 0⟩).out
            ++ [processedLine (names.foldl (procStep dir none) ⟨fs, [], 0⟩).processed]) := by
  simp only [process_directory, hex, eq_self_iff_true, if_true, hls]

theorem scenario_c7_run :
    process_directory fsC7 gifsDir none
      = Except.ok (fsC7c,
          [createdLine outA, createdLine outB, createdLine outC,
           errorLine nD PyError.decodeError, processedLine 3]) := by
  have hA : convert_gif_to_spritesheet fsC7 (joinPath gifsDir nA) none
      = Except.ok (fsC7a, outA) :=
    convert_first_run fsC7 fsC7 (joinPath gifsDir nA) none gifTwo (sheetOf gifTwo)
      rfl rfl (buildCanvas_ok gifTwo (by decide))
  have hB : convert_gif_to_spritesheet fsC7a (joinPath gifsDir nB) none
      = Except.ok (fsC7b, outB) :=
    convert_first_run fsC7a fsC7a (joinPath gifsDir nB) none gifThree (sheetOf gifThree)
      rfl rfl (buildCanvas_ok gifThree (by decide))
  have hC : convert_gif_to_spritesheet fsC7b (joinPath gifsDir nC) none
      = Except.ok (fsC7c, outC) :=
    convert_first_run fsC7b fsC7b (joinPath gifsDir nC) none gifOne (sheetOf gifOne)
      rfl rfl (buildCanvas_ok gifOne (by decide))
  have hD : convert_gif_to_spritesheet fsC7c (joinPath gifsDir nD) none
      = Except.error PyError.decodeError := rfl
  have s1 : procStep gifsDir none ⟨fsC7, [], 0⟩ nA = ⟨fsC7a, [createdLine outA], 1⟩ := by
    simp [procStep, hA, (by decide : endsWithGifCI nA = true)]
  have s2 : procStep gifsDir none ⟨fsC7a, [createdLine outA], 1⟩ nB
      = ⟨fsC7b, [createdLine outA, createdLine outB], 2⟩ := by
    simp [procStep, hB, (by decide : endsWithGifCI nB = true)]
  have s3 : procStep gifsDir none ⟨fsC7b, [createdLine outA, createdLine outB], 2⟩ nC
      = ⟨fsC7c, [createdLine outA, createdLine outB, createdLine outC], 3⟩ := by
    simp [procStep, hC, (by decide : endsWithGifCI nC = true)]
  have s4 : procStep gifsDir none
      ⟨fsC7c, [createdLine outA, createdLine outB, createdLine outC], 3⟩ nD
      = ⟨fsC7c, [createdLine outA, createdLine outB, createdLine outC,
          errorLine nD PyError.decodeError], 3⟩ := by
    simp [procStep, hD, (by decide : endsWithGifCI nD = true)]
  rw [process_directory_none_eval fsC7 gifsDir [nA, nB, nC, nD] rfl rfl]
  rw [List.foldl_cons, s1, List.foldl_cons, s2, List.foldl_cons, s3,
    List.foldl_cons, s4, List.foldl_nil]
  simp

/-- C6 counterexample: with no filesystem entries at all, the input
directory does not exist, yet the driver prints the diagnostic, returns
normally, and the process exit code is `0` — not non-zero as claimed. -/
theorem missing_dir_exit_zero_counterexample :
    mainExitCode fsEmpty gifsDir none = 0 ∧
    process_directory fsEmpty gifsDir none
      = Except.ok (fsEmpty, [dirNotFoundLine gifsDir]) :=
  ⟨rfl, rfl⟩

/-- C6 (amended): a missing input directory is not fatal: the driver
prints `Directory not found: ...` and returns normally, so the process
exits zero — just as it exits zero for a batch in which individual files
failed (shown on the 3-valid-plus-1-corrupt scenario). -/
theorem exit_zero_on_missing_dir (fs : FS) (dir : String) (od : Option String)
    (h : fs.existsPath dir = false) :
    (process_directory fs dir od = Except.ok (fs, [dirNotFoundLine dir]) ∧
     mainExitCode fs dir od = 0) ∧
    mainExitCode fsC7 gifsDir none = 0 := by
  have hp : process_directory fs dir od = Except.ok (fs, [dirNotFoundLine dir]) := by
    unfold process_directory
    rw [if_neg (by rw [h]; exact Bool.false_ne_true)]
  have hm : mainExitCode fs dir od = 0 := by
    unfold mainExitCode
    rw [hp]
  have hb : mainExitCode fsC7 gifsDir none = 0 := by
    unfold mainExitCode
    rw [scenario_c7_run]
  exact ⟨⟨hp, hm⟩, hb⟩

theorem exit_zero_on_missing_dir_witness :
    fsEmpty.existsPath gifsDir = false ∧
    ((process_directory fsEmpty gifsDir none
        = Except.ok (fsEmpty, [dirNotFoundLine gifsDir]) ∧
      mainExitCode fsEmpty gifsDir none = 0) ∧
     mainExitCode fsC7 gifsDir none = 0) :=
  ⟨rfl, exit_zero_on_missing_dir fsEmpty gifsDir none rfl⟩

/-- C7: the batch loop is the error boundary.  In general, a `.gif` file
whose conversion raises any error leaves the filesystem untouched, prints
`Error processing {filename}: {cause}`, does not increment the success
tally, and the fold simply continues with the next file.  On the concrete
directory with three valid GIFs and one corrupt one, the run writes three
PNGs, prints one diagnostic for the corrupt file, and reports
`Processed 3 GIF files` last. -/
theorem batch_error_boundary (directory f : String) (od : Option String)
    (acc : BatchAcc) (e : PyError)
    (hg : endsWithGifCI f = true)
    (he : convert_gif_to_spritesheet acc.fs (joinPath directory f) od = Except.error e) :
    procStep directory od acc f = ⟨acc.fs, acc.out ++ [errorLine f e], acc.processed⟩ ∧
    process_directory fsC7 gifsDir none
      = Except.ok (fsC7c,
          [createdLine outA, createdLine outB, createdLine outC,
           errorLine nD PyError.decodeError, processedLine 3]) ∧
    countPngs fsC7c = 3 := by
  refine ⟨?_, scenario_c7_run, rfl⟩
  simp only [procStep, hg, eq_self_iff_true, if_true, he]

theorem batch_error_boundary_witness :
    (endsWithGifCI nD = true ∧
     convert_gif_to_spritesheet (BatchAcc.mk fsC7c [] 0).fs (joinPath gifsDir nD) none
       = Except.error PyError.decodeError) ∧
    (procStep gifsDir none (BatchAcc.mk fsC7c [] 0) nD
       = ⟨(BatchAcc.mk fsC7c [] 0).fs,
          (BatchAcc.mk fsC7c [] 0).out ++ [errorLine nD PyError.decodeError],
          (BatchAcc.mk fsC7c [] 0).processed⟩ ∧
     process_directory fsC7 gifsDir none
       = Except.ok (fsC7c,
           [createdLine outA, createdLine outB, createdLine outC,
            errorLine nD PyError.decodeError, processedLine 3]) ∧
     countPngs fsC7c = 3) :=
  ⟨⟨by decide, rfl⟩,
   batch_error_boundary gifsDir nD none (BatchAcc.mk fsC7c [] 0) PyError.decodeError
     (by decide) rfl⟩
